import Mathlib

/-!
Shallow embedding of `pkg/media/ivfwriter/ivfwriter.go` (package `ivfwriter`
of `server-sdk-go`): an IVF media-container writer that reassembles RTP
packets carrying VP8 or AV1 into coded frames and serializes them.

Modelling conventions:
* Byte buffers are `List Nat` (each element a byte value; the Go code only
  ever stores bytes produced by `binary.LittleEndian.PutUintN` or copied from
  payloads, so values are kept as the low 8 bits at serialization points).
* The sink (`io.Writer`, optionally `io.WriteSeeker`) is a growable byte
  buffer with a write position; plain writes append at the end, `Seek(16, 0)`
  moves the position, and a write at a position overwrites in place.  Sink
  writes are modelled as always succeeding (an in-memory sink), so the
  `SinkWriteError` paths of the Go code do not arise in the model.
* The Go field `ioWriter` is split into a Boolean `ioWriterOpen` (whether the
  field is non-nil) on the writer and an external `Sink` value standing for
  the destination: setting the Go field to `nil` does not erase the bytes
  already on disk, so the sink's contents survive `Close`.
* `currentFrame` is a `List Nat`; the Go nil-slice test `i.currentFrame ==
  nil` is modelled as emptiness, which is faithful here because in this code
  a non-nil empty slice can never arise (`append` of nothing onto nil stays
  nil, and emission resets the field to nil).
* The external collaborators from `github.com/pion/rtp` — the VP8 payload
  descriptor parser (`codecs.VP8Packet.Unmarshal`) and the AV1 OBU extractor
  (`codecs.AV1Packet.Unmarshal` followed by `frame.AV1.ReadFrames`) — are not
  part of this repository; operations are parameterized over them.  The AV1
  extractor's two failure points are collapsed into a single `Option`.
* `framerate.GetBestMatch` lives in this repository but outside the sources
  in scope; `close` is parameterized over it.  Go's `float64` arithmetic is
  replaced by exact rationals `ℚ`; Go's division by zero on `float64` yields
  a non-finite value where `ℚ` yields `0` — in both semantics the unguarded
  quotient flows into `GetBestMatch` and no error is signalled.
-/

namespace IVF

/-- Little-endian bytes of the low 16 bits of `n`
(`binary.LittleEndian.PutUint16`). -/
def le16 (n : Nat) : List Nat :=
  [n % 256, n / 256 % 256]

/-- Little-endian bytes of the low 32 bits of `n`
(`binary.LittleEndian.PutUint32`). -/
def le32 (n : Nat) : List Nat :=
  [n % 256, n / 256 % 256, n / 2 ^ 16 % 256, n / 2 ^ 24 % 256]

/-- Little-endian bytes of the low 64 bits of `n`
(`binary.LittleEndian.PutUint64`). -/
def le64 (n : Nat) : List Nat :=
  [n % 256, n / 256 % 256, n / 2 ^ 16 % 256, n / 2 ^ 24 % 256,
   n / 2 ^ 32 % 256, n / 2 ^ 40 % 256, n / 2 ^ 48 % 256, n / 2 ^ 56 % 256]

/-- Overwrite `buf` starting at position `pos` with the bytes `bs`,
extending the buffer when the write runs past its end. -/
def writeAt (buf : List Nat) (pos : Nat) (bs : List Nat) : List Nat :=
  buf.take pos ++ bs ++ buf.drop (pos + bs.length)

/-- The byte sink behind the writer: `buf` is the on-disk content so far,
`pos` the current write position, `seekable` whether the Go dynamic test
`i.ioWriter.(io.WriteSeeker)` succeeds. -/
structure Sink where
  buf : List Nat
  pos : Nat
  seekable : Bool
  deriving Repr, DecidableEq

/-- One `Write` call on the sink: overwrite at the current position and
advance it (always succeeds in the model). -/
def sinkWrite (s : Sink) (bs : List Nat) : Sink :=
  { s with buf := writeAt s.buf s.pos bs, pos := s.pos + bs.length }

/-- The errors the package can return.  `errInvalidNilPacket` is declared in
the source but never returned, so it is omitted.  `invalidPayload` stands for
any error propagated out of the external payload parsers. -/
inductive Err where
  | fileNotOpened
  | codecAlreadySet
  | noSuchCodec
  | invalidPayload
  deriving Repr, DecidableEq

/-- `mimeTypeVP8` constant of the source. -/
def mimeTypeVP8 : String := "video/VP8"

/-- `mimeTypeAV1` constant of the source. -/
def mimeTypeAV1 : String := "video/AV1"

/-- `defaultVP8ClockRate` constant of the source. -/
def defaultVP8ClockRate : Nat := 90000

/-- The `IVFWriter` struct.  `ioWriterOpen` models `ioWriter != nil`;
`av1Frame` models the opaque internal state of the external AV1 frame
assembler (`frame.AV1`). -/
structure IVFWriter where
  ioWriterOpen : Bool
  seenKeyFrame : Bool
  isVP8 : Bool
  isAV1 : Bool
  currentFrame : List Nat
  av1Frame : List Nat
  frameCount : Nat
  clockRate : Nat
  firstTimestamp : Nat
  lastTimestamp : Nat
  deriving Repr, DecidableEq

/-- The fields of an `rtp.Packet` that `WriteRTP` reads. -/
structure RTPPacket where
  payload : List Nat
  marker : Bool
  timestamp : Nat
  deriving Repr, DecidableEq

/-- The view of a parsed VP8 payload that the code uses: the
start-of-partition flag `S` and the descriptor-stripped payload bytes
(`Payload`, VP8 payload-header byte included), as exposed by the external
`codecs.VP8Packet`. -/
structure VP8Packet where
  S : Nat
  Payload : List Nat
  deriving Repr, DecidableEq

/-- The options of the package, as data: `WithCodec mime` and
`WithClockRate rate`. -/
inductive WriterOption where
  | withCodec (mimeType : String)
  | withClockRate (clockRate : Nat)
  deriving Repr, DecidableEq

/-- `WithCodec` / `WithClockRate` applied to a writer (the body of the
returned closures). -/
def applyOption (o : WriterOption) (w : IVFWriter) : Except Err IVFWriter :=
  match o with
  | .withCodec mimeType =>
    if w.isVP8 || w.isAV1 then
      .error .codecAlreadySet
    else if mimeType = mimeTypeVP8 then
      .ok { w with isVP8 := true,
                   clockRate := if w.clockRate = 0 then defaultVP8ClockRate
                                else w.clockRate }
    else if mimeType = mimeTypeAV1 then
      .ok { w with isAV1 := true }
    else
      .error .noSuchCodec
  | .withClockRate clockRate => .ok { w with clockRate := clockRate }

/-- The option loop of `NewWith`: apply options left to right, stopping at
the first error. -/
def applyOptions (opts : List WriterOption) (w : IVFWriter) :
    Except Err IVFWriter :=
  match opts with
  | [] => .ok w
  | o :: rest =>
    match applyOption o w with
    | .error e => .error e
    | .ok w' => applyOptions rest w'

/-- The 32-byte IVF file header assembled by `writeHeader`: "DKIF", version,
header size, FOURCC (selected by the codec flags; all-zero when neither flag
is set, since the Go buffer starts zeroed), width, height, provisional
framerate numerator/denominator, provisional frame count, reserved. -/
def ivfFileHeaderBytes (isVP8 isAV1 : Bool) : List Nat :=
  [0x44, 0x4B, 0x49, 0x46] ++ le16 0 ++ le16 32 ++
  (if isVP8 then [0x56, 0x50, 0x38, 0x30]
   else if isAV1 then [0x41, 0x56, 0x30, 0x31]
   else [0, 0, 0, 0]) ++
  le16 640 ++ le16 480 ++ le32 24 ++ le32 1 ++ le32 900 ++ le32 0

/-- `IVFWriter.writeHeader`: write the 32-byte header to the sink. -/
def writeHeader (ws : IVFWriter × Sink) : IVFWriter × Sink :=
  (ws.1, sinkWrite ws.2 (ivfFileHeaderBytes ws.1.isVP8 ws.1.isAV1))

/-- `NewWith`: fail on a nil sink, apply the options, default to VP8 (with
the default clock rate when none is set), then write the file header. -/
def newWith (out : Option Sink) (opts : List WriterOption) :
    Except Err (IVFWriter × Sink) :=
  match out with
  | none => .error .fileNotOpened
  | some s =>
    let writer : IVFWriter :=
      { ioWriterOpen := true, seenKeyFrame := false, isVP8 := false,
        isAV1 := false, currentFrame := [], av1Frame := [], frameCount := 0,
        clockRate := 0, firstTimestamp := 0, lastTimestamp := 0 }
    match applyOptions opts writer with
    | .error e => .error e
    | .ok writer =>
      let writer :=
        if !writer.isAV1 && !writer.isVP8 then
          { writer with
              isVP8 := true,
              clockRate := if writer.clockRate = 0 then defaultVP8ClockRate
                           else writer.clockRate }
        else writer
      .ok (writeHeader (writer, s))

/-- `IVFWriter.writeFrame`: write the 12-byte frame header (little-endian
frame length, then the frame counter as the 8-byte PTS), bump the counter,
then write the frame bytes. -/
def writeFrame (ws : IVFWriter × Sink) (frame : List Nat) :
    IVFWriter × Sink :=
  let frameHeader := le32 frame.length ++ le64 ws.1.frameCount
  ({ ws.1 with frameCount := ws.1.frameCount + 1 },
   sinkWrite (sinkWrite ws.2 frameHeader) frame)

/-- `IVFWriter.FrameDropped`: bump the frame counter without writing. -/
def frameDropped (w : IVFWriter) : IVFWriter :=
  { w with frameCount := w.frameCount + 1 }

/-- `IVFWriter.WriteRTP`, parameterized over the external VP8 payload parser
(`parseVP8`, modelling `codecs.VP8Packet.Unmarshal`) and the external AV1
OBU extractor (`av1Ingest`, modelling `codecs.AV1Packet.Unmarshal` followed
by `frame.AV1.ReadFrames`: old assembler state and RTP payload in, new
assembler state and the extracted OBUs out, `none` on either failure). -/
def writeRTP (parseVP8 : List Nat → Option VP8Packet)
    (av1Ingest : List Nat → List Nat → Option (List Nat × List (List Nat)))
    (ws : IVFWriter × Sink) (packet : RTPPacket) :
    (IVFWriter × Sink) × Option Err :=
  let (w, s) := ws
  if !w.ioWriterOpen then
    ((w, s), some .fileNotOpened)
  else if packet.payload.length = 0 then
    ((w, s), none)
  else if w.isVP8 then
    match parseVP8 packet.payload with
    | none => ((w, s), some .invalidPayload)
    | some vp8Packet =>
      let isKeyFrame := vp8Packet.Payload.headD 0 % 2
      if !w.seenKeyFrame && isKeyFrame == 1 then
        ((w, s), none)
      else if w.currentFrame.isEmpty && vp8Packet.S != 1 then
        ((w, s), none)
      else
        let w :=
          if !w.seenKeyFrame then
            { w with seenKeyFrame := true, firstTimestamp := packet.timestamp }
          else w
        let w := { w with currentFrame := w.currentFrame ++ vp8Packet.Payload }
        if !packet.marker then
          ((w, s), none)
        else if w.currentFrame.isEmpty then
          ((w, s), none)
        else
          let ws' := writeFrame (w, s) w.currentFrame
          (({ ws'.1 with lastTimestamp := packet.timestamp,
                         currentFrame := [] }, ws'.2), none)
  else if w.isAV1 then
    match av1Ingest w.av1Frame packet.payload with
    | none => ((w, s), some .invalidPayload)
    | some (st, obus) =>
      let w := { w with av1Frame := st }
      (obus.foldl writeFrame (w, s), none)
  else
    ((w, s), none)

/-- `IVFWriter.Close`, parameterized over the external
`framerate.GetBestMatch` (rational in, numerator/denominator pair out).
On an already-closed writer it returns success immediately; otherwise, when
the sink is seekable, it seeks to offset 16 and rewrites framerate
numerator, denominator and frame count, feeding `GetBestMatch` the quotient
`clockRate * frameCount / (lastTimestamp - firstTimestamp)` (32-bit wrapping
subtraction, no zero-denominator guard); in every case it ends with the
deferred `ioWriter = nil`. -/
def close (getBestMatch : ℚ → Nat × Nat) (ws : IVFWriter × Sink) :
    (IVFWriter × Sink) × Option Err :=
  let (w, s) := ws
  if !w.ioWriterOpen then
    ((w, s), none)
  else
    let w' := { w with ioWriterOpen := false }
    if s.seekable then
      let s := { s with pos := 16 }
      let elapsed : Nat := (w.lastTimestamp + 2 ^ 32 - w.firstTimestamp) % 2 ^ 32
      let rate : ℚ := (w.clockRate * w.frameCount : ℚ) / (elapsed : ℚ)
      let nd := getBestMatch rate
      let buff := le32 nd.1 ++ le32 nd.2 ++ le32 (w.frameCount % 2 ^ 32)
      ((w', sinkWrite s buff), none)
    else
      ((w', s), none)

/-- Run `WriteRTP` over a list of packets in arrival order (per-packet
errors do not stop the session; the source returns them to the caller and
stays usable, matching §7 of the spec). -/
def runRTP (parseVP8 : List Nat → Option VP8Packet)
    (av1Ingest : List Nat → List Nat → Option (List Nat × List (List Nat))) :
    IVFWriter × Sink → List RTPPacket → IVFWriter × Sink
  | ws, [] => ws
  | ws, p :: rest => runRTP parseVP8 av1Ingest (writeRTP parseVP8 av1Ingest ws p).1 rest

/-- A frame-slot operation: either a frame written via `writeFrame` or a
slot consumed by `FrameDropped`. -/
inductive SlotOp where
  | write (bs : List Nat)
  | dropped
  deriving Repr, DecidableEq

/-- Run a list of frame-slot operations. -/
def runSlots : IVFWriter × Sink → List SlotOp → IVFWriter × Sink
  | ws, [] => ws
  | ws, .write bs :: rest => runSlots (writeFrame ws bs) rest
  | ws, .dropped :: rest => runSlots (frameDropped ws.1, ws.2) rest

/-- Modelled from the spec: the on-disk bytes the spec predicts for a list
of frame-slot operations starting at slot counter `c` — each written frame
contributes a 4-byte little-endian length, an 8-byte little-endian PTS equal
to the number of slots (written or dropped) that preceded it, then the frame
bytes; dropped slots contribute nothing but consume a slot. -/
def slotBytesSpec (c : Nat) : List SlotOp → List Nat
  | [] => []
  | .write bs :: rest =>
    le32 bs.length ++ le64 c ++ bs ++ slotBytesSpec (c + 1) rest
  | .dropped :: rest => slotBytesSpec (c + 1) rest

/-- Writing at the end of the buffer is concatenation. -/
theorem writeAt_length (buf bs : List Nat) :
    writeAt buf buf.length bs = buf ++ bs := by
  simp [writeAt, List.drop_eq_nil_of_le]

/-- A sink whose position is at the end of its buffer appends on write. -/
theorem sinkWrite_append (s : Sink) (bs : List Nat) (h : s.pos = s.buf.length) :
    sinkWrite s bs = ⟨s.buf ++ bs, s.pos + bs.length, s.seekable⟩ := by
  simp [sinkWrite, h, writeAt_length]

/-- `WriteRTP` on an open writer with an empty payload changes nothing. -/
theorem C10_empty_payload_noop (parseVP8 : List Nat → Option VP8Packet)
    (av1Ingest : List Nat → List Nat → Option (List Nat × List (List Nat)))
    (w : IVFWriter) (s : Sink) (p : RTPPacket)
    (hopen : w.ioWriterOpen = true) (hp : p.payload = []) :
    writeRTP parseVP8 av1Ingest (w, s) p = ((w, s), none) := by
  simp [writeRTP, hopen, hp]

/-- Witness for `C10_empty_payload_noop` at a concrete input. -/
theorem C10_empty_payload_noop_witness :
    writeRTP (fun _ => none) (fun _ _ => none)
      (⟨true, false, true, false, [], [], 0, 90000, 0, 0⟩, ⟨[], 0, false⟩)
      ⟨[], true, 3⟩
    = ((⟨true, false, true, false, [], [], 0, 90000, 0, 0⟩, ⟨[], 0, false⟩),
       none) :=
  C10_empty_payload_noop (fun _ => none) (fun _ _ => none)
    ⟨true, false, true, false, [], [], 0, 90000, 0, 0⟩ ⟨[], 0, false⟩
    ⟨[], true, 3⟩ rfl rfl

/-- A second `Close` after a first `Close` is a no-op returning success, so
closing twice leaves the same on-disk bytes as closing once. -/
theorem C5_close_idempotent (getBestMatch : ℚ → Nat × Nat)
    (ws : IVFWriter × Sink) :
    close getBestMatch (close getBestMatch ws).1
      = ((close getBestMatch ws).1, none) := by
  obtain ⟨w, s⟩ := ws
  cases ho : w.ioWriterOpen <;> cases hs : s.seekable <;>
    simp [close, ho, hs]

/-- `Close` on a non-seekable sink patches nothing (the sink bytes are
untouched, so the placeholder numerator 24, denominator 1 and frame count
900 written at construction persist) and reports no error. -/
theorem C7_close_nonseekable (getBestMatch : ℚ → Nat × Nat)
    (w : IVFWriter) (s : Sink)
    (hopen : w.ioWriterOpen = true) (hseek : s.seekable = false) :
    close getBestMatch (w, s) = (({ w with ioWriterOpen := false }, s), none)
    ∧ ∀ b1 b2 : Bool,
        ((ivfFileHeaderBytes b1 b2).drop 16).take 12
          = le32 24 ++ le32 1 ++ le32 900 := by
  refine ⟨by simp [close, hopen, hseek], by decide⟩

/-- Witness for `C7_close_nonseekable` at a concrete input. -/
theorem C7_close_nonseekable_witness :
    close (fun _ => (30, 1))
      (⟨true, true, true, false, [], [], 2, 90000, 10, 100⟩,
       ⟨ivfFileHeaderBytes true false, 32, false⟩)
      = ((⟨false, true, true, false, [], [], 2, 90000, 10, 100⟩,
          ⟨ivfFileHeaderBytes true false, 32, false⟩), none)
    ∧ ∀ b1 b2 : Bool,
        ((ivfFileHeaderBytes b1 b2).drop 16).take 12
          = le32 24 ++ le32 1 ++ le32 900 :=
  C7_close_nonseekable (fun _ => (30, 1))
    ⟨true, true, true, false, [], [], 2, 90000, 10, 100⟩
    ⟨ivfFileHeaderBytes true false, 32, false⟩ rfl rfl

/-- When no frame completed (`lastTimestamp = firstTimestamp`), `Close` on a
seekable sink does not fail closed: it signals no error, performs the header
patch anyway, and the unguarded quotient degenerates (modelled as the
rational `0`, standing for Go's `float64` division by zero) before flowing
into `GetBestMatch`. -/
theorem C4_close_division_unguarded (getBestMatch : ℚ → Nat × Nat)
    (w : IVFWriter) (s : Sink)
    (hopen : w.ioWriterOpen = true) (hseek : s.seekable = true)
    (heq : w.lastTimestamp = w.firstTimestamp) :
    (close getBestMatch (w, s)).2 = none
    ∧ (close getBestMatch (w, s)).1.2.pos = 16 + 12
    ∧ (close getBestMatch (w, s)).1.2.buf
        = writeAt s.buf 16
            (le32 (getBestMatch 0).1 ++ le32 (getBestMatch 0).2
              ++ le32 (w.frameCount % 2 ^ 32)) := by
  have helapsed : (w.lastTimestamp + 4294967296 - w.firstTimestamp) % 4294967296 = 0 := by
    rw [heq, Nat.add_sub_cancel_left, Nat.mod_self]
  simp [close, hopen, hseek, helapsed, sinkWrite, le32]

/-- Witness for `C4_close_division_unguarded` at a concrete input. -/
theorem C4_close_division_unguarded_witness :
    (close (fun _ => (30, 1))
      (⟨true, false, true, false, [], [], 0, 90000, 0, 0⟩,
       ⟨ivfFileHeaderBytes true false, 32, true⟩)).2 = none
    ∧ (close (fun _ => (30, 1))
        (⟨true, false, true, false, [], [], 0, 90000, 0, 0⟩,
         ⟨ivfFileHeaderBytes true false, 32, true⟩)).1.2.pos = 16 + 12
    ∧ (close (fun _ => (30, 1))
        (⟨true, false, true, false, [], [], 0, 90000, 0, 0⟩,
         ⟨ivfFileHeaderBytes true false, 32, true⟩)).1.2.buf
        = writeAt (ivfFileHeaderBytes true false) 16
            (le32 30 ++ le32 1 ++ le32 (0 % 2 ^ 32)) :=
  C4_close_division_unguarded (fun _ => (30, 1))
    ⟨true, false, true, false, [], [], 0, 90000, 0, 0⟩
    ⟨ivfFileHeaderBytes true false, 32, true⟩ rfl rfl rfl

/-- Construction with a nil sink fails with the file-not-opened error, and
construction with a sink immediately writes the 32-byte header: "DKIF",
little-endian version 0 and header length 32, FOURCC "VP80" (default / VP8)
or "AV01" (AV1), then width 640, height 480, framerate numerator 24,
denominator 1, provisional frame count 900 and a reserved zero field, all
little-endian. -/
theorem C8_construction_header :
    (∀ opts, newWith none opts = .error .fileNotOpened)
    ∧ (∀ b : Bool, newWith (some ⟨[], 0, b⟩) []
        = .ok (⟨true, false, true, false, [], [], 0, 90000, 0, 0⟩,
               ⟨ivfFileHeaderBytes true false, 32, b⟩))
    ∧ ivfFileHeaderBytes true false
        = [0x44, 0x4B, 0x49, 0x46, 0, 0, 32, 0, 0x56, 0x50, 0x38, 0x30,
           128, 2, 224, 1, 24, 0, 0, 0, 1, 0, 0, 0, 132, 3, 0, 0, 0, 0, 0, 0]
    ∧ (∀ b : Bool, newWith (some ⟨[], 0, b⟩) [.withCodec mimeTypeAV1]
        = .ok (⟨true, false, false, true, [], [], 0, 0, 0, 0⟩,
               ⟨ivfFileHeaderBytes false true, 32, b⟩))
    ∧ ivfFileHeaderBytes false true
        = [0x44, 0x4B, 0x49, 0x46, 0, 0, 32, 0, 0x41, 0x56, 0x30, 0x31,
           128, 2, 224, 1, 24, 0, 0, 0, 1, 0, 0, 0, 132, 3, 0, 0, 0, 0, 0, 0] :=
  ⟨fun _ => rfl, fun b => by cases b <;> rfl, by decide,
   fun b => by cases b <;> rfl, by decide⟩

/-- Codec binding is decided once at construction: a codec option on a
writer that already has a codec fails with the codec-already-set error, an
unrecognized mime type fails with the no-such-codec error, and with no codec
option the writer defaults to VP8 with the default clock rate. -/
theorem C9_codec_binding :
    (∀ (w : IVFWriter) (m : String), (w.isVP8 = true ∨ w.isAV1 = true) →
      applyOption (.withCodec m) w = .error .codecAlreadySet)
    ∧ (∀ (w : IVFWriter) (m : String), w.isVP8 = false → w.isAV1 = false →
        m ≠ mimeTypeVP8 → m ≠ mimeTypeAV1 →
        applyOption (.withCodec m) w = .error .noSuchCodec)
    ∧ (∀ b : Bool, (newWith (some ⟨[], 0, b⟩) []).map
        (fun ws => (ws.1.isVP8, ws.1.isAV1, ws.1.clockRate))
        = .ok (true, false, 90000)) := by
  refine ⟨?_, ?_, fun b => by cases b <;> rfl⟩
  · intro w m h
    rcases h with h | h <;> simp [applyOption, h]
  · intro w m h8 h1 hv ha
    simp [applyOption, h8, h1, hv, ha]

/-- Witness for `C9_codec_binding` at concrete inputs. -/
theorem C9_codec_binding_witness :
    applyOption (.withCodec mimeTypeAV1)
      ⟨true, false, true, false, [], [], 0, 90000, 0, 0⟩
      = .error .codecAlreadySet
    ∧ applyOption (.withCodec "video/H264")
        ⟨true, false, false, false, [], [], 0, 0, 0, 0⟩
        = .error .noSuchCodec
    ∧ (newWith (some ⟨[], 0, false⟩) []).map
        (fun ws => (ws.1.isVP8, ws.1.isAV1, ws.1.clockRate))
        = .ok (true, false, 90000) :=
  ⟨C9_codec_binding.1 ⟨true, false, true, false, [], [], 0, 90000, 0, 0⟩
      mimeTypeAV1 (Or.inl rfl),
   C9_codec_binding.2.1 ⟨true, false, false, false, [], [], 0, 0, 0, 0⟩
      "video/H264" rfl rfl (by decide) (by decide),
   C9_codec_binding.2.2 false⟩

/-- Before sync, a VP8 packet whose keyframe-indicator bit is 1 (or whose
payload is empty or unparseable) leaves the writer and the sink exactly as
they were. -/
theorem writeRTP_vp8_presync_skip (parseVP8 : List Nat → Option VP8Packet)
    (av1Ingest : List Nat → List Nat → Option (List Nat × List (List Nat)))
    (w : IVFWriter) (s : Sink) (p : RTPPacket)
    (h8 : w.isVP8 = true) (hseen : w.seenKeyFrame = false)
    (hk : ∀ v, parseVP8 p.payload = some v → v.Payload.headD 0 % 2 = 1) :
    (writeRTP parseVP8 av1Ingest (w, s) p).1 = (w, s) := by
  cases ho : w.ioWriterOpen
  · simp [writeRTP, ho]
  · by_cases hp : p.payload.length = 0
    · simp [writeRTP, ho, hp]
    · cases hv : parseVP8 p.payload with
      | none => simp [writeRTP, ho, hp, h8, hv]
      | some v =>
        have hb := hk v hv
        simp only [List.headD_eq_head?_getD] at hb
        simp [writeRTP, ho, hp, h8, hv, hseen, hb]

/-- A whole run of VP8 packets none of which carries keyframe-indicator
bit 0 leaves the writer and the sink exactly as they were. -/
theorem runRTP_vp8_presync_skip (parseVP8 : List Nat → Option VP8Packet)
    (av1Ingest : List Nat → List Nat → Option (List Nat × List (List Nat)))
    (pkts : List RTPPacket) (w : IVFWriter) (s : Sink)
    (h8 : w.isVP8 = true) (hseen : w.seenKeyFrame = false)
    (hk : ∀ p ∈ pkts, ∀ v, parseVP8 p.payload = some v →
      v.Payload.headD 0 % 2 = 1) :
    runRTP parseVP8 av1Ingest (w, s) pkts = (w, s) := by
  induction pkts with
  | nil => rfl
  | cons p rest ih =>
    have hstep := writeRTP_vp8_presync_skip parseVP8 av1Ingest w s p h8 hseen
      (hk p (List.mem_cons_self p rest))
    show runRTP parseVP8 av1Ingest (writeRTP parseVP8 av1Ingest (w, s) p).1 rest = (w, s)
    rw [hstep]
    exact ih (fun q hq => hk q (List.mem_cons_of_mem p hq))

/-- For a freshly constructed VP8 writer, any packet sequence in which no
parsed payload ever has keyframe-indicator bit 0 emits nothing: the writer
(buffer, flag, counter) and the sink are untouched, and the sink holds
exactly the 32-byte file header. -/
theorem C2_no_keyframe_only_header (parseVP8 : List Nat → Option VP8Packet)
    (av1Ingest : List Nat → List Nat → Option (List Nat × List (List Nat)))
    (pkts : List RTPPacket) (b : Bool) (ws0 : IVFWriter × Sink)
    (hc : newWith (some ⟨[], 0, b⟩) [] = .ok ws0)
    (hk : ∀ p ∈ pkts, ∀ v, parseVP8 p.payload = some v →
      v.Payload.headD 0 % 2 = 1) :
    runRTP parseVP8 av1Ingest ws0 pkts = ws0
    ∧ ws0.2.buf = ivfFileHeaderBytes true false
    ∧ ws0.2.buf.length = 32
    ∧ ws0.1.frameCount = 0
    ∧ ws0.1.currentFrame = [] := by
  have hc' : newWith (some ⟨[], 0, b⟩) []
      = .ok ((⟨true, false, true, false, [], [], 0, 90000, 0, 0⟩ : IVFWriter),
             (⟨ivfFileHeaderBytes true false, 32, b⟩ : Sink)) := by
    cases b <;> rfl
  rw [hc'] at hc
  obtain rfl : ws0 = (⟨true, false, true, false, [], [], 0, 90000, 0, 0⟩,
      ⟨ivfFileHeaderBytes true false, 32, b⟩) := (Except.ok.injEq _ _).mp hc.symm
  exact ⟨runRTP_vp8_presync_skip parseVP8 av1Ingest pkts _ _ rfl rfl hk,
    rfl, rfl, rfl, rfl⟩

/-- Witness for `C2_no_keyframe_only_header` at a concrete input: one
non-keyframe packet against a parser that flags it bit 1. -/
theorem C2_no_keyframe_only_header_witness :
    runRTP (fun bs => some ⟨1, bs⟩) (fun _ _ => none)
      (⟨true, false, true, false, [], [], 0, 90000, 0, 0⟩,
       ⟨ivfFileHeaderBytes true false, 32, false⟩)
      [⟨[0x11, 0xAA], true, 9⟩]
    = (⟨true, false, true, false, [], [], 0, 90000, 0, 0⟩,
       ⟨ivfFileHeaderBytes true false, 32, false⟩)
    ∧ (ivfFileHeaderBytes true false : List Nat) = ivfFileHeaderBytes true false
    ∧ (ivfFileHeaderBytes true false).length = 32
    ∧ (0 : Nat) = 0
    ∧ ([] : List Nat) = [] := by
  have h := C2_no_keyframe_only_header (fun bs => some ⟨1, bs⟩)
    (fun _ _ => none) [⟨[0x11, 0xAA], true, 9⟩] false
    (⟨true, false, true, false, [], [], 0, 90000, 0, 0⟩,
     ⟨ivfFileHeaderBytes true false, 32, false⟩)
    rfl
    (by
      intro p hp v hv
      simp only [List.mem_singleton] at hp
      subst hp
      cases hv
      decide)
  exact ⟨h.1, rfl, h.2.2.1, rfl, rfl⟩

/-- `writeFrame` on an end-aligned sink appends the 12-byte frame header
(little-endian length, then the counter as PTS) followed by the frame bytes,
and bumps the counter. -/
theorem writeFrame_append (w : IVFWriter) (s : Sink) (bs : List Nat)
    (h : s.pos = s.buf.length) :
    writeFrame (w, s) bs
      = ({ w with frameCount := w.frameCount + 1 },
         ⟨s.buf ++ (le32 bs.length ++ le64 w.frameCount) ++ bs,
          s.pos + 12 + bs.length, s.seekable⟩) := by
  show ({ w with frameCount := w.frameCount + 1 },
      sinkWrite (sinkWrite s (le32 bs.length ++ le64 w.frameCount)) bs) = _
  rw [sinkWrite_append s (le32 bs.length ++ le64 w.frameCount) h]
  rw [sinkWrite_append ⟨s.buf ++ (le32 bs.length ++ le64 w.frameCount),
        s.pos + (le32 bs.length ++ le64 w.frameCount).length, s.seekable⟩ bs
      (by simp [h, le32, le64])]
  simp [le32, le64, List.append_assoc]

/-- Running frame-slot operations from an end-aligned sink appends exactly
the spec-predicted bytes and advances the counter by the number of slots. -/
theorem runSlots_spec : ∀ (ops : List SlotOp) (w : IVFWriter) (s : Sink),
    s.pos = s.buf.length →
    (runSlots (w, s) ops).2.buf = s.buf ++ slotBytesSpec w.frameCount ops
    ∧ (runSlots (w, s) ops).1.frameCount = w.frameCount + ops.length := by
  intro ops
  induction ops with
  | nil => intro w s h; simp [runSlots, slotBytesSpec]
  | cons op rest ih =>
    intro w s h
    cases op with
    | dropped =>
      have hrec := ih (frameDropped w) s h
      show (runSlots (frameDropped w, s) rest).2.buf = _
        ∧ (runSlots (frameDropped w, s) rest).1.frameCount = _
      refine ⟨?_, ?_⟩
      · rw [hrec.1]; simp [frameDropped, slotBytesSpec]
      · rw [hrec.2]; simp [frameDropped]; omega
    | write bs =>
      show (runSlots (writeFrame (w, s) bs) rest).2.buf = _
        ∧ (runSlots (writeFrame (w, s) bs) rest).1.frameCount = _
      rw [writeFrame_append w s bs h]
      have hrec := ih { w with frameCount := w.frameCount + 1 }
        ⟨s.buf ++ (le32 bs.length ++ le64 w.frameCount) ++ bs,
         s.pos + 12 + bs.length, s.seekable⟩
        (by simp [h, le32, le64]; omega)
      refine ⟨?_, ?_⟩
      · rw [hrec.1]; simp [slotBytesSpec, List.append_assoc]
      · rw [hrec.2]; simp; omega

/-- For any interleaving of written and dropped frame slots from a fresh
counter, the PTS written into each frame's 12-byte header equals the number
of slots (written or dropped) that preceded it, and the counter ends at the
total number of slots. -/
theorem C3_pts_slot_index (ops : List SlotOp) (w : IVFWriter) (s : Sink)
    (hc : w.frameCount = 0) (hpos : s.pos = s.buf.length) :
    (runSlots (w, s) ops).2.buf = s.buf ++ slotBytesSpec 0 ops
    ∧ (runSlots (w, s) ops).1.frameCount = ops.length := by
  have hrun := runSlots_spec ops w s hpos
  rw [hc] at hrun
  simpa using hrun

/-- Witness for `C3_pts_slot_index` at a concrete input: write, drop, write
gives PTS values 0 and 2 and a final counter of 3. -/
theorem C3_pts_slot_index_witness :
    (runSlots (⟨true, true, true, false, [], [], 0, 90000, 0, 0⟩,
        ⟨ivfFileHeaderBytes true false, 32, false⟩)
        [.write [5], .dropped, .write [6]]).2.buf
      = ivfFileHeaderBytes true false
        ++ slotBytesSpec 0 [.write [5], .dropped, .write [6]]
    ∧ (runSlots (⟨true, true, true, false, [], [], 0, 90000, 0, 0⟩,
        ⟨ivfFileHeaderBytes true false, 32, false⟩)
        [.write [5], .dropped, .write [6]]).1.frameCount = 3 :=
  C3_pts_slot_index [.write [5], .dropped, .write [6]]
    ⟨true, true, true, false, [], [], 0, 90000, 0, 0⟩
    ⟨ivfFileHeaderBytes true false, 32, false⟩ rfl rfl

/-- Running a packet list split in two is running the parts in order. -/
theorem runRTP_append (parseVP8 : List Nat → Option VP8Packet)
    (av1Ingest : List Nat → List Nat → Option (List Nat × List (List Nat))) :
    ∀ (l1 l2 : List RTPPacket) (ws : IVFWriter × Sink),
    runRTP parseVP8 av1Ingest ws (l1 ++ l2)
      = runRTP parseVP8 av1Ingest (runRTP parseVP8 av1Ingest ws l1) l2 := by
  intro l1
  induction l1 with
  | nil => intro l2 ws; rfl
  | cons p rest ih => intro l2 ws; exact ih l2 _

/-- After sync, an accepted non-marker VP8 packet appends its full parsed
payload to the accumulating buffer and touches nothing else. -/
theorem writeRTP_vp8_accum_step (parseVP8 : List Nat → Option VP8Packet)
    (av1Ingest : List Nat → List Nat → Option (List Nat × List (List Nat)))
    (w : IVFWriter) (s : Sink) (p : RTPPacket) (v : VP8Packet)
    (hopen : w.ioWriterOpen = true) (h8 : w.isVP8 = true)
    (hseen : w.seenKeyFrame = true)
    (hv : parseVP8 p.payload = some v) (hlne : p.payload ≠ [])
    (hm : p.marker = false)
    (hacc : w.currentFrame = [] → v.S = 1) :
    writeRTP parseVP8 av1Ingest (w, s) p
      = (({ w with currentFrame := w.currentFrame ++ v.Payload }, s), none) := by
  have hlen : ¬ p.payload.length = 0 := by
    simpa [List.length_eq_zero] using hlne
  by_cases hcf : w.currentFrame = []
  · have hS := hacc hcf
    simp [writeRTP, hopen, hlen, h8, hv, hseen, hcf, hS, hm]
  · simp [writeRTP, hopen, hlen, h8, hv, hseen, hcf, hm]

/-- After sync, an accepted marker VP8 packet with a non-empty accumulated
result emits the buffer plus its payload as one frame (12-byte frame header
then the bytes), records the packet's timestamp as `lastTimestamp`, clears
the buffer and bumps the frame counter. -/
theorem writeRTP_vp8_emit_step (parseVP8 : List Nat → Option VP8Packet)
    (av1Ingest : List Nat → List Nat → Option (List Nat × List (List Nat)))
    (w : IVFWriter) (s : Sink) (p : RTPPacket) (v : VP8Packet)
    (hopen : w.ioWriterOpen = true) (h8 : w.isVP8 = true)
    (hseen : w.seenKeyFrame = true)
    (hv : parseVP8 p.payload = some v) (hlne : p.payload ≠ [])
    (hm : p.marker = true)
    (hacc : w.currentFrame = [] → v.S = 1)
    (hne : w.currentFrame ++ v.Payload ≠ []) :
    writeRTP parseVP8 av1Ingest (w, s) p
      = (({ w with currentFrame := [],
                   frameCount := w.frameCount + 1,
                   lastTimestamp := p.timestamp },
          sinkWrite (sinkWrite s (le32 (w.currentFrame ++ v.Payload).length
              ++ le64 w.frameCount)) (w.currentFrame ++ v.Payload)), none) := by
  have hlen : ¬ p.payload.length = 0 := by
    simpa [List.length_eq_zero] using hlne
  have hne' : ¬ (w.currentFrame = [] ∧ v.Payload = []) := by
    simpa [List.append_eq_nil] using hne
  by_cases hcf : w.currentFrame = []
  · have hS := hacc hcf
    have hPne : v.Payload ≠ [] := fun hP0 => hne' ⟨hcf, hP0⟩
    simp [writeRTP, writeFrame, hopen, hlen, h8, hv, hseen, hcf, hS, hm, hPne]
  · simp [writeRTP, writeFrame, hopen, hlen, h8, hv, hseen, hcf, hm, hne']

/-- After sync with a non-empty buffer, a run of accepted non-marker VP8
packets appends the concatenation of their parsed payloads, in arrival
order, to the buffer, and leaves everything else (the sink included)
unchanged. -/
theorem runRTP_vp8_accum (parseVP8 : List Nat → Option VP8Packet)
    (av1Ingest : List Nat → List Nat → Option (List Nat × List (List Nat)))
    (mids : List RTPPacket) (vms : List VP8Packet)
    (hf : List.Forall₂ (fun (p : RTPPacket) (v : VP8Packet) =>
      parseVP8 p.payload = some v ∧ p.payload ≠ [] ∧ p.marker = false)
      mids vms) :
    ∀ (w : IVFWriter) (s : Sink), w.ioWriterOpen = true → w.isVP8 = true →
    w.seenKeyFrame = true → w.currentFrame ≠ [] →
    runRTP parseVP8 av1Ingest (w, s) mids
      = ({ w with currentFrame :=
            w.currentFrame ++ (vms.map VP8Packet.Payload).flatten }, s) := by
  induction hf with
  | nil =>
    intro w s _ _ _ _
    simp [runRTP]
  | cons hpv hrest ih =>
    intro w s hopen h8 hseen hcf
    rename_i p v mids' vms'
    have hstep := writeRTP_vp8_accum_step parseVP8 av1Ingest w s p v
      hopen h8 hseen hpv.1 hpv.2.1 hpv.2.2 (fun h => absurd h hcf)
    show runRTP parseVP8 av1Ingest
      (writeRTP parseVP8 av1Ingest (w, s) p).1 mids' = _
    rw [hstep]
    rw [ih { w with currentFrame := w.currentFrame ++ v.Payload } s
      hopen h8 hseen (by simp [hcf])]
    simp [List.append_assoc]

/-- For every VP8 packet sequence accepted after sync — a run of parsed,
non-empty, non-marker packets whose first packet is a start of partition
with a non-empty payload, closed by a marker packet — the emitted frame's
bytes are exactly the concatenation, in arrival order, of the full parsed
payloads (header byte included) of those packets, preceded by the 12-byte
frame header, and the accumulating buffer is cleared after the emission. -/
theorem C1_vp8_frame_concat (parseVP8 : List Nat → Option VP8Packet)
    (av1Ingest : List Nat → List Nat → Option (List Nat × List (List Nat)))
    (mids : List RTPPacket) (vms : List VP8Packet)
    (plast : RTPPacket) (vlast : VP8Packet) (w : IVFWriter) (s : Sink)
    (hopen : w.ioWriterOpen = true) (h8 : w.isVP8 = true)
    (hseen : w.seenKeyFrame = true) (hcf : w.currentFrame = [])
    (hpos : s.pos = s.buf.length)
    (hmids : List.Forall₂ (fun (p : RTPPacket) (v : VP8Packet) =>
      parseVP8 p.payload = some v ∧ p.payload ≠ [] ∧ p.marker = false)
      mids vms)
    (hlast : parseVP8 plast.payload = some vlast)
    (hlne : plast.payload ≠ []) (hmark : plast.marker = true)
    (hS : (vms.headD vlast).S = 1) (hP : (vms.headD vlast).Payload ≠ []) :
    (runRTP parseVP8 av1Ingest (w, s) (mids ++ [plast])).2.buf
      = s.buf
        ++ le32 ((vms.map VP8Packet.Payload).flatten ++ vlast.Payload).length
        ++ le64 w.frameCount
        ++ ((vms.map VP8Packet.Payload).flatten ++ vlast.Payload)
    ∧ (runRTP parseVP8 av1Ingest (w, s) (mids ++ [plast])).1.currentFrame = []
    ∧ (runRTP parseVP8 av1Ingest (w, s) (mids ++ [plast])).1.frameCount
        = w.frameCount + 1 := by
  cases hmids with
  | nil =>
    have hS' : vlast.S = 1 := by simpa using hS
    have hP' : vlast.Payload ≠ [] := by simpa using hP
    have hsink : sinkWrite (sinkWrite s
          (le32 (w.currentFrame ++ vlast.Payload).length ++ le64 w.frameCount))
          (w.currentFrame ++ vlast.Payload)
        = ⟨s.buf ++ (le32 (w.currentFrame ++ vlast.Payload).length
              ++ le64 w.frameCount) ++ (w.currentFrame ++ vlast.Payload),
           s.pos + 12 + (w.currentFrame ++ vlast.Payload).length, s.seekable⟩ :=
      congrArg Prod.snd (writeFrame_append w s _ hpos)
    have hemit := writeRTP_vp8_emit_step parseVP8 av1Ingest w s plast vlast
      hopen h8 hseen hlast hlne hmark (fun _ => hS') (by simp [hcf, hP'])
    have hrun : runRTP parseVP8 av1Ingest (w, s) ([] ++ [plast])
        = (writeRTP parseVP8 av1Ingest (w, s) plast).1 := rfl
    rw [hrun, hemit, hsink]
    simp [hcf, List.append_assoc]
  | cons hpv hrest =>
    rename_i p v mids' vms'
    have hS' : v.S = 1 := by simpa using hS
    have hP' : v.Payload ≠ [] := by simpa using hP
    have hstep := writeRTP_vp8_accum_step parseVP8 av1Ingest w s p v
      hopen h8 hseen hpv.1 hpv.2.1 hpv.2.2 (fun _ => hS')
    have hmid : runRTP parseVP8 av1Ingest (w, s) (p :: mids')
        = ({ w with currentFrame :=
              v.Payload ++ (vms'.map VP8Packet.Payload).flatten }, s) := by
      show runRTP parseVP8 av1Ingest
        (writeRTP parseVP8 av1Ingest (w, s) p).1 mids' = _
      rw [hstep]
      rw [runRTP_vp8_accum parseVP8 av1Ingest mids' vms' hrest
        { w with currentFrame := w.currentFrame ++ v.Payload } s
        hopen h8 hseen (by simp [hcf, hP'])]
      simp [hcf]
    have hsink : sinkWrite (sinkWrite s
          (le32 ((v.Payload ++ (vms'.map VP8Packet.Payload).flatten)
              ++ vlast.Payload).length ++ le64 w.frameCount))
          ((v.Payload ++ (vms'.map VP8Packet.Payload).flatten) ++ vlast.Payload)
        = ⟨s.buf ++ (le32 ((v.Payload ++ (vms'.map VP8Packet.Payload).flatten)
              ++ vlast.Payload).length ++ le64 w.frameCount)
              ++ ((v.Payload ++ (vms'.map VP8Packet.Payload).flatten)
                ++ vlast.Payload),
           s.pos + 12 + ((v.Payload ++ (vms'.map VP8Packet.Payload).flatten)
              ++ vlast.Payload).length, s.seekable⟩ :=
      congrArg Prod.snd (writeFrame_append w s _ hpos)
    have hemit := writeRTP_vp8_emit_step parseVP8 av1Ingest
      { w with currentFrame := v.Payload ++ (vms'.map VP8Packet.Payload).flatten }
      s plast vlast hopen h8 hseen hlast hlne hmark
      (by intro hx; exact absurd hx (by simp [hP']))
      (by simp [hP'])
    rw [runRTP_append parseVP8 av1Ingest (p :: mids') [plast] (w, s), hmid]
    have hrun : runRTP parseVP8 av1Ingest
        ({ w with currentFrame :=
            v.Payload ++ (vms'.map VP8Packet.Payload).flatten }, s) [plast]
        = (writeRTP parseVP8 av1Ingest
            ({ w with currentFrame :=
              v.Payload ++ (vms'.map VP8Packet.Payload).flatten }, s) plast).1 :=
      rfl
    rw [hrun, hemit]
    rw [show ({ w with currentFrame :=
        v.Payload ++ (vms'.map VP8Packet.Payload).flatten } : IVFWriter).currentFrame
      = v.Payload ++ (vms'.map VP8Packet.Payload).flatten from rfl] at *
    rw [hsink]
    simp [List.append_assoc]

/-- Witness for `C1_vp8_frame_concat` at the spec's two-packet scenario:
payload views `[0x10, 0x01]` (start of partition, marker unset) then
`[0x02, 0x03]` (not a partition start, marker set) yield one frame whose
bytes are `[0x10, 0x01] ++ [0x02, 0x03]`, with the buffer cleared and the
counter bumped from 0 to 1. -/
theorem C1_vp8_frame_concat_witness :
    (runRTP (fun bs => some ⟨if bs = [0x10, 0x01] then 1 else 0, bs⟩)
        (fun _ _ => none)
        (⟨true, true, true, false, [], [], 0, 90000, 5, 0⟩,
         ⟨ivfFileHeaderBytes true false, 32, false⟩)
        ([⟨[0x10, 0x01], false, 5⟩] ++ [⟨[0x02, 0x03], true, 5⟩])).2.buf
      = (⟨ivfFileHeaderBytes true false, 32, false⟩ : Sink).buf
        ++ le32 ((([⟨1, [0x10, 0x01]⟩] : List VP8Packet).map VP8Packet.Payload).flatten
            ++ [0x02, 0x03]).length
        ++ le64 (⟨true, true, true, false, [], [], 0, 90000, 5, 0⟩ : IVFWriter).frameCount
        ++ ((([⟨1, [0x10, 0x01]⟩] : List VP8Packet).map VP8Packet.Payload).flatten
            ++ [0x02, 0x03])
    ∧ (runRTP (fun bs => some ⟨if bs = [0x10, 0x01] then 1 else 0, bs⟩)
        (fun _ _ => none)
        (⟨true, true, true, false, [], [], 0, 90000, 5, 0⟩,
         ⟨ivfFileHeaderBytes true false, 32, false⟩)
        ([⟨[0x10, 0x01], false, 5⟩] ++ [⟨[0x02, 0x03], true, 5⟩])).1.currentFrame = []
    ∧ (runRTP (fun bs => some ⟨if bs = [0x10, 0x01] then 1 else 0, bs⟩)
        (fun _ _ => none)
        (⟨true, true, true, false, [], [], 0, 90000, 5, 0⟩,
         ⟨ivfFileHeaderBytes true false, 32, false⟩)
        ([⟨[0x10, 0x01], false, 5⟩] ++ [⟨[0x02, 0x03], true, 5⟩])).1.frameCount
      = (⟨true, true, true, false, [], [], 0, 90000, 5, 0⟩ : IVFWriter).frameCount + 1 :=
  C1_vp8_frame_concat (fun bs => some ⟨if bs = [0x10, 0x01] then 1 else 0, bs⟩)
    (fun _ _ => none)
    [⟨[0x10, 0x01], false, 5⟩] [⟨1, [0x10, 0x01]⟩]
    ⟨[0x02, 0x03], true, 5⟩ ⟨0, [0x02, 0x03]⟩
    ⟨true, true, true, false, [], [], 0, 90000, 5, 0⟩
    ⟨ivfFileHeaderBytes true false, 32, false⟩
    rfl rfl rfl rfl rfl
    (List.Forall₂.cons ⟨by decide, by decide, rfl⟩ List.Forall₂.nil)
    (by decide) (by decide) rfl rfl (by decide)

/-- The AV1 emission loop (`writeFrame` per OBU) never touches the
timestamp fields. -/
theorem foldl_writeFrame_timestamps : ∀ (obus : List (List Nat))
    (ws : IVFWriter × Sink),
    (obus.foldl writeFrame ws).1.firstTimestamp = ws.1.firstTimestamp
    ∧ (obus.foldl writeFrame ws).1.lastTimestamp = ws.1.lastTimestamp := by
  intro obus
  induction obus with
  | nil => intro ws; exact ⟨rfl, rfl⟩
  | cons o rest ih => intro ws; exact ih (writeFrame ws o)

/-- Counterexample to the claim that `lastTimestamp` is updated on every
completed frame on both codec paths: an AV1 packet with timestamp 7 whose
extraction yields one OBU makes `WriteRTP` write a frame (the counter goes
to 1) while `lastTimestamp` stays 0, not 7. -/
theorem C6_av1_no_timestamp_update_counterexample :
    (writeRTP (fun _ => none) (fun st p => some (st ++ p, [[1]]))
        (⟨true, false, false, true, [], [], 0, 0, 0, 0⟩,
         ⟨ivfFileHeaderBytes false true, 32, false⟩)
        ⟨[9], true, 7⟩).1.1.frameCount = 1
    ∧ ¬ (writeRTP (fun _ => none) (fun st p => some (st ++ p, [[1]]))
        (⟨true, false, false, true, [], [], 0, 0, 0, 0⟩,
         ⟨ivfFileHeaderBytes false true, 32, false⟩)
        ⟨[9], true, 7⟩).1.1.lastTimestamp = (7 : Nat) := by
  exact ⟨by decide, by decide⟩

/-- Amended timestamp invariant: on the VP8 path, every completed frame
records the completing packet's timestamp in `lastTimestamp`, and the sync
packet records its timestamp in `firstTimestamp` while setting the
keyframe-seen flag; the AV1 path (and a writer bound to neither codec)
never changes `firstTimestamp` or `lastTimestamp`. -/
theorem C6_timestamps_amended :
    (∀ (parseVP8 : List Nat → Option VP8Packet)
      (av1Ingest : List Nat → List Nat → Option (List Nat × List (List Nat)))
      (w : IVFWriter) (s : Sink) (p : RTPPacket) (v : VP8Packet),
      w.ioWriterOpen = true → w.isVP8 = true → w.seenKeyFrame = true →
      parseVP8 p.payload = some v → p.payload ≠ [] → p.marker = true →
      (w.currentFrame = [] → v.S = 1) → w.currentFrame ++ v.Payload ≠ [] →
      (writeRTP parseVP8 av1Ingest (w, s) p).1.1.lastTimestamp = p.timestamp)
    ∧ (∀ (parseVP8 : List Nat → Option VP8Packet)
      (av1Ingest : List Nat → List Nat → Option (List Nat × List (List Nat)))
      (w : IVFWriter) (s : Sink) (p : RTPPacket) (v : VP8Packet),
      w.ioWriterOpen = true → w.isVP8 = true → w.seenKeyFrame = false →
      parseVP8 p.payload = some v → p.payload ≠ [] →
      v.Payload.headD 0 % 2 = 0 → v.S = 1 →
      (writeRTP parseVP8 av1Ingest (w, s) p).1.1.firstTimestamp = p.timestamp
      ∧ (writeRTP parseVP8 av1Ingest (w, s) p).1.1.seenKeyFrame = true)
    ∧ (∀ (parseVP8 : List Nat → Option VP8Packet)
      (av1Ingest : List Nat → List Nat → Option (List Nat × List (List Nat)))
      (w : IVFWriter) (s : Sink) (p : RTPPacket),
      w.isVP8 = false →
      (writeRTP parseVP8 av1Ingest (w, s) p).1.1.firstTimestamp
        = w.firstTimestamp
      ∧ (writeRTP parseVP8 av1Ingest (w, s) p).1.1.lastTimestamp
        = w.lastTimestamp) := by
  refine ⟨?_, ?_, ?_⟩
  · intro parseVP8 av1Ingest w s p v hopen h8 hseen hv hlne hm hacc hne
    rw [writeRTP_vp8_emit_step parseVP8 av1Ingest w s p v
      hopen h8 hseen hv hlne hm hacc hne]
  · intro parseVP8 av1Ingest w s p v hopen h8 hseen hv hlne hbit hS
    have hlen : ¬ p.payload.length = 0 := by
      simpa [List.length_eq_zero] using hlne
    simp only [List.headD_eq_head?_getD] at hbit
    cases hm : p.marker
    · simp [writeRTP, hopen, hlen, h8, hv, hseen, hbit, hS, hm]
    · by_cases hemp : w.currentFrame = [] ∧ v.Payload = []
      · simp [writeRTP, hopen, hlen, h8, hv, hseen, hbit, hS, hm, hemp]
      · simp [writeRTP, writeFrame, hopen, hlen, h8, hv, hseen, hbit, hS, hm,
          hemp]
  · intro parseVP8 av1Ingest w s p h8
    cases ho : w.ioWriterOpen
    · simp [writeRTP, ho]
    · by_cases hp : p.payload.length = 0
      · simp [writeRTP, ho, hp]
      · cases ha : w.isAV1
        · simp [writeRTP, ho, hp, h8, ha]
        · cases hi : av1Ingest w.av1Frame p.payload with
          | none => simp [writeRTP, ho, hp, h8, ha, hi]
          | some r =>
            obtain ⟨st, obus⟩ := r
            simp only [writeRTP, ho, hp, h8, ha, hi]
            simpa [ho, h8, ha] using foldl_writeFrame_timestamps obus
              ({ w with av1Frame := st }, s)

/-- Witness for `C6_timestamps_amended` at concrete inputs: a completing
VP8 marker packet with timestamp 9, a VP8 sync packet with timestamp 9, and
an AV1 packet on a writer whose timestamps are 0. -/
theorem C6_timestamps_amended_witness :
    (writeRTP (fun bs => some ⟨1, bs⟩) (fun _ _ => none)
        (⟨true, true, true, false, [], [], 0, 90000, 5, 0⟩,
         ⟨ivfFileHeaderBytes true false, 32, false⟩)
        ⟨[0x11, 0xAA], true, 9⟩).1.1.lastTimestamp
      = (⟨[0x11, 0xAA], true, 9⟩ : RTPPacket).timestamp
    ∧ ((writeRTP (fun bs => some ⟨1, bs⟩) (fun _ _ => none)
        (⟨true, false, true, false, [], [], 0, 90000, 0, 0⟩,
         ⟨ivfFileHeaderBytes true false, 32, false⟩)
        ⟨[0x10, 0xAA], true, 9⟩).1.1.firstTimestamp
        = (⟨[0x10, 0xAA], true, 9⟩ : RTPPacket).timestamp
      ∧ (writeRTP (fun bs => some ⟨1, bs⟩) (fun _ _ => none)
        (⟨true, false, true, false, [], [], 0, 90000, 0, 0⟩,
         ⟨ivfFileHeaderBytes true false, 32, false⟩)
        ⟨[0x10, 0xAA], true, 9⟩).1.1.seenKeyFrame = true)
    ∧ ((writeRTP (fun _ => none) (fun st _ => some (st, []))
        (⟨true, false, false, true, [], [], 0, 0, 3, 4⟩,
         ⟨ivfFileHeaderBytes false true, 32, false⟩)
        ⟨[1], false, 8⟩).1.1.firstTimestamp
        = (⟨true, false, false, true, [], [], 0, 0, 3, 4⟩ : IVFWriter).firstTimestamp
      ∧ (writeRTP (fun _ => none) (fun st _ => some (st, []))
        (⟨true, false, false, true, [], [], 0, 0, 3, 4⟩,
         ⟨ivfFileHeaderBytes false true, 32, false⟩)
        ⟨[1], false, 8⟩).1.1.lastTimestamp
        = (⟨true, false, false, true, [], [], 0, 0, 3, 4⟩ : IVFWriter).lastTimestamp) :=
  ⟨C6_timestamps_amended.1 (fun bs => some ⟨1, bs⟩) (fun _ _ => none)
      ⟨true, true, true, false, [], [], 0, 90000, 5, 0⟩
      ⟨ivfFileHeaderBytes true false, 32, false⟩
      ⟨[0x11, 0xAA], true, 9⟩ ⟨1, [0x11, 0xAA]⟩
      rfl rfl rfl rfl (by decide) rfl (fun _ => rfl) (by decide),
   C6_timestamps_amended.2.1 (fun bs => some ⟨1, bs⟩) (fun _ _ => none)
      ⟨true, false, true, false, [], [], 0, 90000, 0, 0⟩
      ⟨ivfFileHeaderBytes true false, 32, false⟩
      ⟨[0x10, 0xAA], true, 9⟩ ⟨1, [0x10, 0xAA]⟩
      rfl rfl rfl rfl (by decide) (by decide) rfl,
   C6_timestamps_amended.2.2 (fun _ => none) (fun st _ => some (st, []))
      ⟨true, false, false, true, [], [], 0, 0, 3, 4⟩
      ⟨ivfFileHeaderBytes false true, 32, false⟩
      ⟨[1], false, 8⟩ rfl⟩

end IVF
